import Mathlib

/-! Formal model of the inventory optimization engine of the
Retail-Forecasting-Inventory backend.

Sources modelled:
* backend/dal/inventory_repo.py: calculate_safety_stock, calculate_reorder_point,
  calculate_eoq, perform_abc_analysis, get_stock_status, update_inventory.
* backend/routers/inventory.py: the demand-statistics computation and the
  /optimize/{store_id} orchestrator.  That module contains two merged variants of
  the per-product loop; the DB-backed loop (the one reading inventory items from
  Mongo, lines 292-377) is the operative one modelled here, the earlier
  CSV-column loop is unreachable merge residue.

Modelling conventions:
* Python/NumPy floats are modelled exactly: rational values as ℚ, values that
  pass through np.sqrt as ℝ (Real.sqrt); int(np.ceil(x)) is the integer ceiling.
  IEEE NaN has no counterpart in ℚ; where the source relies on NaN (pandas std
  of a singleton, comparisons against NaN percentages) the model encodes the
  branch outcome that NaN produces, as noted at each definition.
* Python round is round-half-even while Mathlib round is round-half-up; every
  concrete value rounded in the theorems below is exactly representable, so the
  difference is immaterial to the statements proved.
* Mongo documents are structures, collections are lists in a DB snapshot record;
  HTTPException outcomes form an error type: notFound (404), forbidden (403),
  serverError (500).
-/

set_option linter.unusedVariables false

namespace RetailInv

/-- Characters accepted by bson ObjectId.is_valid: hexadecimal digits. -/
def isHexChar (c : Char) : Bool :=
  c.isDigit || ('a' ≤ c && c ≤ 'f') || ('A' ≤ c && c ≤ 'F')

/-- bson ObjectId.is_valid on a string: exactly 24 hexadecimal characters.
Used by dal/stores_repo._is_valid_store_id and by ObjectId.is_valid calls in
the router. -/
def isValidObjectId (s : String) : Bool :=
  s.length == 24 && s.toList.all isHexChar

/-- The z_scores dict of calculate_safety_stock, with dict.get default 1.65
(backend/dal/inventory_repo.py lines 256-263).  Python float keys compare by
exact value, mirrored by exact ℚ equality. -/
def zScore (service_level : ℚ) : ℚ :=
  if service_level = 0.90 then 1.28
  else if service_level = 0.95 then 1.65
  else if service_level = 0.99 then 2.33
  else if service_level = 0.999 then 3.09
  else 1.65

/-- backend/dal/inventory_repo.py calculate_safety_stock:
int(np.ceil(z_score * demand_std * np.sqrt(lead_time_days))).
The avg_demand parameter is accepted and ignored exactly as in the source.
Python defaults are lead_time_days=7, service_level=0.95 (call sites below pass
them explicitly). -/
noncomputable def calculate_safety_stock (avg_demand : ℚ) (demand_std : ℝ)
    (lead_time_days : ℤ) (service_level : ℚ) : ℤ :=
  ⌈((zScore service_level : ℚ) : ℝ) * demand_std * Real.sqrt (lead_time_days : ℝ)⌉

/-- backend/dal/inventory_repo.py calculate_reorder_point:
int(np.ceil(avg_demand * lead_time_days + safety_stock)). -/
def calculate_reorder_point (avg_demand : ℚ) (lead_time_days : ℤ)
    (safety_stock : ℤ) : ℤ :=
  ⌈avg_demand * (lead_time_days : ℚ) + (safety_stock : ℚ)⌉

/-- backend/dal/inventory_repo.py calculate_eoq: returns 0 when
annual_demand <= 0, otherwise int(np.ceil(np.sqrt((2*D*S)/holding_cost))) with
holding_cost = unit_cost * holding_cost_rate.  Python defaults are
ordering_cost=50, holding_cost_rate=0.25, unit_cost=10. -/
noncomputable def calculate_eoq (annual_demand ordering_cost holding_cost_rate
    unit_cost : ℚ) : ℤ :=
  if annual_demand ≤ 0 then 0
  else
    let holding_cost := unit_cost * holding_cost_rate
    ⌈Real.sqrt ((((2 * annual_demand * ordering_cost) / holding_cost) : ℚ) : ℝ)⌉

/-- backend/dal/inventory_repo.py get_stock_status.  The comparison with
reorder_point * 1.5 happens in float arithmetic, modelled in ℚ. -/
def get_stock_status (current_stock reorder_point safety_stock : ℤ) : String :=
  if current_stock ≤ safety_stock then "Critical"
  else if current_stock ≤ reorder_point then "Low - Order Now"
  else if (current_stock : ℚ) ≤ (reorder_point : ℚ) * 1.5 then "Moderate"
  else "Healthy"

/-- Insertion of one element into a list sorted descending by a ℚ key; used to
model pandas sort_values(ascending=False).  pandas' quicksort is unstable, so
no tie-break order is guaranteed by the source either. -/
def insertDescBy {α : Type} (key : α → ℚ) (x : α) : List α → List α
  | [] => [x]
  | y :: ys => if key y < key x then x :: y :: ys else y :: insertDescBy key x ys

/-- Descending sort by a ℚ key, modelling pandas sort_values(ascending=False). -/
def sortDescBy {α : Type} (key : α → ℚ) : List α → List α
  | [] => []
  | x :: xs => insertDescBy key x (sortDescBy key xs)

/-- pandas Series.cumsum with a running accumulator. -/
def cumsumFrom (acc : ℚ) : List ℚ → List ℚ
  | [] => []
  | x :: xs => (acc + x) :: cumsumFrom (acc + x) xs

/-- pandas Series.cumsum. -/
def cumsum (l : List ℚ) : List ℚ := cumsumFrom 0 l

/-- The classify helper of perform_abc_analysis: cumulative revenue percentage
at most 80 is A, at most 95 is B, otherwise C. -/
def abcClassify (pct : ℚ) : String :=
  if pct ≤ 80 then "A" else if pct ≤ 95 then "B" else "C"

theorem insertDescBy_length {α : Type} (key : α → ℚ) (x : α) (l : List α) :
    (insertDescBy key x l).length = l.length + 1 := by
  induction l with
  | nil => rfl
  | cons y ys ih =>
    unfold insertDescBy
    split_ifs <;> simp [ih]

theorem sortDescBy_length {α : Type} (key : α → ℚ) (l : List α) :
    (sortDescBy key l).length = l.length := by
  induction l with
  | nil => rfl
  | cons x xs ih => simp [sortDescBy, insertDescBy_length, ih]

theorem insertDescBy_map_sum {α : Type} (key : α → ℚ) (f : α → ℚ) (x : α)
    (l : List α) :
    ((insertDescBy key x l).map f).sum = f x + (l.map f).sum := by
  induction l with
  | nil => simp [insertDescBy]
  | cons y ys ih =>
    unfold insertDescBy
    split_ifs
    · simp
    · simp only [List.map_cons, List.sum_cons, ih]
      ring

theorem sortDescBy_map_sum {α : Type} (key : α → ℚ) (f : α → ℚ) (l : List α) :
    ((sortDescBy key l).map f).sum = (l.map f).sum := by
  induction l with
  | nil => rfl
  | cons x xs ih => simp [sortDescBy, insertDescBy_map_sum, ih]

theorem sortDescBy_id_sum (l : List ℚ) : (sortDescBy id l).sum = l.sum := by
  have h := sortDescBy_map_sum id id l
  simpa using h

/-- backend/dal/inventory_repo.py perform_abc_analysis (the repository-layer
variant with the explicit total-revenue zero guard).  The input is the
annual_revenue column; the output pairs each (sorted) revenue with its
abc_classification.  pd.isna(total_revenue) has no counterpart in ℚ and is not
represented; the guard branch otherwise matches lines 314-318 of the source. -/
def perform_abc_analysis (revenues : List ℚ) : List (ℚ × String) :=
  let sorted := sortDescBy id revenues
  let total := sorted.sum
  let cums := cumsum sorted
  if total = 0 then sorted.map fun r => (r, "C")
  else (sorted.zip cums).map fun p => (p.1, abcClassify (p.2 / total * 100))

/-- C8: when the total annual revenue of the product set is zero (for example
every product has annual_revenue = 0), perform_abc_analysis classifies every
product C, and no division is attempted: the computation is total and keeps
one output row per input product. -/
theorem abc_zero_revenue_all_c (revenues : List ℚ) (h : revenues.sum = 0) :
    (perform_abc_analysis revenues).length = revenues.length ∧
    ∀ p ∈ perform_abc_analysis revenues, p.2 = "C" := by
  have htot : (sortDescBy id revenues).sum = 0 := by
    rw [sortDescBy_id_sum]; exact h
  constructor
  · simp only [perform_abc_analysis, htot, if_pos]
    simp [sortDescBy_length]
  · intro p hp
    simp only [perform_abc_analysis, htot, if_pos, List.mem_map] at hp
    obtain ⟨r, _, rfl⟩ := hp
    rfl

/-- Witness for abc_zero_revenue_all_c: five products of zero revenue. -/
theorem abc_zero_revenue_all_c_witness :
    ([0, 0, 0, 0, 0] : List ℚ).sum = 0 ∧
    ∀ p ∈ perform_abc_analysis [0, 0, 0, 0, 0], p.2 = "C" :=
  ⟨by norm_num, (abc_zero_revenue_all_c [0, 0, 0, 0, 0] (by norm_num)).2⟩

/-- The allowed_fields whitelist of update_inventory
(backend/dal/inventory_repo.py lines 146-155). -/
def allowed_fields : List String :=
  ["quantity", "reserved_quantity", "reorder_point", "reorder_quantity",
   "safety_stock", "holding_cost_per_unit", "stockout_penalty", "last_counted"]

/-- safe_updates = {k: v for k, v in updates.items() if k in allowed_fields}.
Documents and update payloads are partial maps from field name to value,
polymorphic in the stored value type. -/
def safe_updates {V : Type} (updates : String → Option V) : String → Option V :=
  fun k => if k ∈ allowed_fields then updates k else none

/-- The $set write performed by update_inventory on the matched document:
safe_updates plus the forced last_updated = now; every field not named in the
$set payload keeps its stored value. -/
def update_inventory_set {V : Type} (doc updates : String → Option V) (now : V) :
    String → Option V :=
  fun k =>
    if k = "last_updated" then some now
    else
      match safe_updates updates k with
      | some v => some v
      | none => doc k

/-- C10: update_inventory can change only quantity, reserved_quantity,
reorder_point, reorder_quantity, safety_stock, holding_cost_per_unit,
stockout_penalty, last_counted and last_updated; every other stored field, in
particular product_id and store_id, keeps its value, and any key of the
updates map outside the whitelist is ignored. -/
theorem update_inventory_frame {V : Type} (doc updates : String → Option V)
    (now : V) (k : String) (hk : k ∉ allowed_fields) (hk2 : k ≠ "last_updated") :
    update_inventory_set doc updates now k = doc k ∧
    update_inventory_set doc updates now "product_id" = doc "product_id" ∧
    update_inventory_set doc updates now "store_id" = doc "store_id" := by
  refine ⟨?_, ?_, ?_⟩
  · simp [update_inventory_set, safe_updates, hk, hk2]
  · simp [update_inventory_set, safe_updates, allowed_fields]
  · simp [update_inventory_set, safe_updates, allowed_fields]

/-- Witness for update_inventory_frame: the non-whitelisted field created_at
keeps its stored value. -/
theorem update_inventory_frame_witness :
    ("created_at" ∉ allowed_fields) ∧ ("created_at" : String) ≠ "last_updated" ∧
    update_inventory_set (fun _ => (some 1 : Option ℤ)) (fun _ => some 2) 3
        "created_at" = (fun _ => (some 1 : Option ℤ)) "created_at" :=
  ⟨by decide, by decide,
    (update_inventory_frame (fun _ => (some 1 : Option ℤ)) (fun _ => some 2) 3
      "created_at" (by decide) (by decide)).1⟩

/-- One parsed sales observation fed to the demand-statistics block of
optimize_inventory: the pd.to_datetime-parsed date (as a day number) and the
sold quantity. -/
structure SaleObs where
  date : ℤ
  quantity : ℚ
deriving DecidableEq

/-- The df.quantity column. -/
def quantities (obs : List SaleObs) : List ℚ := obs.map SaleObs.quantity

/-- pandas Series.mean of a non-empty column. -/
def qmean (l : List ℚ) : ℚ := l.sum / (l.length : ℚ)

/-- The square of pandas Series.std (sample variance, ddof=1): none when there
are fewer than two values, where pandas yields NaN. -/
def sample_variance (l : List ℚ) : Option ℚ :=
  if l.length < 2 then none
  else some ((l.map fun x => (x - qmean l) ^ 2).sum / ((l.length : ℚ) - 1))

/-- routers/inventory.py line 335 (avg_daily_demand = df.quantity.mean()) for a
non-empty sales window, line 345 (0.0 default) for the empty one. -/
def avg_daily_demand (obs : List SaleObs) : ℚ :=
  if obs.isEmpty then 0 else qmean (quantities obs)

/-- routers/inventory.py lines 336-338: demand_std = df.quantity.std(); if
pd.isna(demand_std) or demand_std < 1: demand_std = max(1.0, avg*0.2).  The
NaN case (fewer than two observations) is the none branch of sample_variance;
otherwise the std is Real.sqrt of the sample variance. -/
noncomputable def demand_std_dev (obs : List SaleObs) : ℝ :=
  match sample_variance (quantities obs) with
  | none => max 1 ((avg_daily_demand obs : ℝ) * 0.2)
  | some v =>
      if Real.sqrt (v : ℝ) < 1 then max 1 ((avg_daily_demand obs : ℝ) * 0.2)
      else Real.sqrt (v : ℝ)

/-- pandas Series.max of a non-empty ℤ column. -/
def listMax (l : List ℤ) : ℤ := l.foldl max (l.headD 0)

/-- pandas Series.min of a non-empty ℤ column. -/
def listMin (l : List ℤ) : ℤ := l.foldl min (l.headD 0)

/-- days_of_data = (df.date.max() - df.date.min()).days + 1
(routers/inventory.py line 340). -/
def days_of_data (obs : List SaleObs) : ℤ :=
  listMax (obs.map SaleObs.date) - listMin (obs.map SaleObs.date) + 1

/-- annual_demand = total_demand / max(1, days_of_data) * 365
(routers/inventory.py lines 341-342), 0.0 for the empty window (line 347). -/
def annual_demand (obs : List SaleObs) : ℚ :=
  if obs.isEmpty then 0
  else (quantities obs).sum / ((max 1 (days_of_data obs) : ℤ) : ℚ) * 365

/-- C2 fails on the code: for a non-empty window avg_daily_demand is the plain
arithmetic mean of the observation quantities, not total quantity divided by
max(1, days spanned).  Two observations of quantities 4 and 8 dated two days
apart give mean 6, while the claimed quotient is 12 / max(1, (2-0)+1) = 4. -/
theorem avg_daily_demand_counterexample :
    avg_daily_demand [⟨0, 4⟩, ⟨2, 8⟩] = 6 ∧
    (quantities [⟨0, 4⟩, ⟨2, 8⟩]).sum /
        ((max 1 (days_of_data [⟨0, 4⟩, ⟨2, 8⟩]) : ℤ) : ℚ) = 4 ∧
    (6 : ℚ) ≠ 4 := by
  refine ⟨?_, ?_, by norm_num⟩ <;>
    norm_num [avg_daily_demand, qmean, quantities, days_of_data, listMax, listMin]

/-- C2 amended: for a non-empty observation window avg_daily_demand is the
arithmetic mean total_quantity_sold / number_of_observations, and the quotient
total_quantity_sold / max(1, (last_date - first_date).days + 1) is instead the
daily rate used (times 365) for annualized demand; for an empty window
avg_daily_demand is 0. -/
theorem avg_daily_demand_amended (obs : List SaleObs) (h : obs ≠ []) :
    avg_daily_demand obs = (quantities obs).sum / (obs.length : ℚ) ∧
    annual_demand obs =
      (quantities obs).sum / ((max 1 (days_of_data obs) : ℤ) : ℚ) * 365 ∧
    avg_daily_demand [] = 0 := by
  obtain ⟨x, xs, rfl⟩ := List.exists_cons_of_ne_nil h
  refine ⟨?_, ?_, rfl⟩ <;>
    simp [avg_daily_demand, annual_demand, qmean, quantities]

/-- Witness for avg_daily_demand_amended at the two-observation window. -/
theorem avg_daily_demand_amended_witness :
    ([⟨0, 4⟩, ⟨2, 8⟩] : List SaleObs) ≠ [] ∧
    avg_daily_demand [⟨0, 4⟩, ⟨2, 8⟩] =
      (quantities [⟨0, 4⟩, ⟨2, 8⟩]).sum / (([⟨0, 4⟩, ⟨2, 8⟩] : List SaleObs).length : ℚ) :=
  ⟨by simp, (avg_daily_demand_amended [⟨0, 4⟩, ⟨2, 8⟩] (by simp)).1⟩

/-- C3: with fewer than two observations, or a sample standard deviation that
is undefined or below 1.0, demand_std_dev is replaced by
max(1.0, avg_daily_demand × 0.2); in particular a single observation of
quantity 10 gives avg_daily_demand = 10 and demand_std_dev = 2. -/
theorem demand_std_fallback :
    (∀ obs : List SaleObs,
      (obs.length < 2 ∨ sample_variance (quantities obs) = none ∨
        (∃ v, sample_variance (quantities obs) = some v ∧ Real.sqrt (v : ℝ) < 1)) →
      demand_std_dev obs = max 1 ((avg_daily_demand obs : ℝ) * 0.2)) ∧
    avg_daily_demand [⟨0, 10⟩] = 10 ∧
    demand_std_dev [⟨0, 10⟩] = 2 := by
  have hmain : ∀ obs : List SaleObs,
      (obs.length < 2 ∨ sample_variance (quantities obs) = none ∨
        (∃ v, sample_variance (quantities obs) = some v ∧ Real.sqrt (v : ℝ) < 1)) →
      demand_std_dev obs = max 1 ((avg_daily_demand obs : ℝ) * 0.2) := by
    intro obs h
    cases hv : sample_variance (quantities obs) with
    | none => simp [demand_std_dev, hv]
    | some v =>
        have hlt : Real.sqrt (v : ℝ) < 1 := by
          rcases h with h | h | ⟨w, hw, hw1⟩
          · have hnone : sample_variance (quantities obs) = none := by
              simp [sample_variance, quantities, h]
            rw [hnone] at hv
            cases hv
          · rw [hv] at h
            cases h
          · rw [hv] at hw
            cases hw
            exact hw1
        simp [demand_std_dev, hv, if_pos hlt]
  have havg : avg_daily_demand [⟨0, 10⟩] = 10 := by
    norm_num [avg_daily_demand, qmean, quantities]
  refine ⟨hmain, havg, ?_⟩
  have h1 : demand_std_dev [⟨0, 10⟩] = max 1 ((avg_daily_demand [⟨0, 10⟩] : ℝ) * 0.2) :=
    hmain [⟨0, 10⟩] (Or.inl (by decide))
  rw [h1, havg]
  rw [show ((10 : ℚ) : ℝ) * 0.2 = 2 by norm_num]
  rw [max_eq_right (by norm_num : (1 : ℝ) ≤ 2)]

/-- Witness for demand_std_fallback: the singleton window has fewer than two
observations, so the fallback equation applies to it. -/
theorem demand_std_fallback_witness :
    (([⟨0, 10⟩] : List SaleObs).length < 2) ∧
    demand_std_dev [⟨0, 10⟩] = max 1 ((avg_daily_demand [⟨0, 10⟩] : ℝ) * 0.2) :=
  ⟨by decide, demand_std_fallback.1 [⟨0, 10⟩] (Or.inl (by decide))⟩

/-- C5: for every avg_demand, demand_std ≥ 0 and lead_time_days > 0,
calculate_safety_stock returns ceil(z × demand_std × sqrt(lead_time_days)) with
z = 1.28 for service level 0.90, 1.65 for 0.95, 2.33 for 0.99, 3.09 for 0.999,
and 1.65 for every other service-level value, so any unrecognized level yields
the same result as 0.95. -/
theorem safety_stock_z_table (avg : ℚ) (std : ℝ) (lead : ℤ) (sl : ℚ)
    (havg : 0 ≤ avg) (hstd : 0 ≤ std) (hlead : 0 < lead) :
    calculate_safety_stock avg std lead sl =
      ⌈(((if sl = 0.90 then (1.28 : ℚ) else if sl = 0.95 then 1.65
          else if sl = 0.99 then 2.33 else if sl = 0.999 then 3.09
          else 1.65) : ℚ) : ℝ) * std * Real.sqrt (lead : ℝ)⌉ ∧
    (sl ≠ 0.90 → sl ≠ 0.95 → sl ≠ 0.99 → sl ≠ 0.999 →
      calculate_safety_stock avg std lead sl =
        calculate_safety_stock avg std lead 0.95) := by
  constructor
  · rfl
  · intro h1 h2 h3 h4
    simp only [calculate_safety_stock, zScore, if_neg h1, if_neg h2, if_neg h3,
      if_neg h4]
    norm_num

/-- Witness for safety_stock_z_table: instantiated at avg=1, std=1, lead=7 and
the unrecognized service level 1/2, which therefore falls back to 0.95. -/
theorem safety_stock_z_table_witness :
    (0 : ℚ) ≤ 1 ∧ (0 : ℝ) ≤ 1 ∧ (0 : ℤ) < 7 ∧
    calculate_safety_stock 1 1 7 (1/2) = calculate_safety_stock 1 1 7 0.95 :=
  ⟨zero_le_one, zero_le_one, by decide,
    (safety_stock_z_table 1 1 7 (1/2) zero_le_one zero_le_one (by decide)).2
      (by norm_num) (by norm_num) (by norm_num) (by norm_num)⟩

/-- C6: for all valid inputs (avg_daily_demand ≥ 0, demand_std_dev ≥ 0,
lead_time_days > 0) the safety stock and the reorder point
ceil(avg_daily_demand × lead_time_days + safety_stock) are non-negative
integers and reorder_point ≥ safety_stock always holds. -/
theorem reorder_point_dominates (avg : ℚ) (std : ℝ) (lead : ℤ) (sl : ℚ)
    (havg : 0 ≤ avg) (hstd : 0 ≤ std) (hlead : 0 < lead) :
    0 ≤ calculate_safety_stock avg std lead sl ∧
    0 ≤ calculate_reorder_point avg lead (calculate_safety_stock avg std lead sl) ∧
    calculate_safety_stock avg std lead sl ≤
      calculate_reorder_point avg lead (calculate_safety_stock avg std lead sl) := by
  have hz : (0 : ℚ) ≤ zScore sl := by
    unfold zScore; split_ifs <;> norm_num
  have hzr : (0 : ℝ) ≤ ((zScore sl : ℚ) : ℝ) := by exact_mod_cast hz
  have hss : 0 ≤ calculate_safety_stock avg std lead sl := by
    apply Int.ceil_nonneg
    exact mul_nonneg (mul_nonneg hzr hstd) (Real.sqrt_nonneg _)
  have hdom : calculate_safety_stock avg std lead sl ≤
      calculate_reorder_point avg lead (calculate_safety_stock avg std lead sl) := by
    unfold calculate_reorder_point
    rw [Int.ceil_add_int]
    have hml : (0 : ℚ) ≤ avg * (lead : ℚ) := by
      apply mul_nonneg havg
      exact_mod_cast hlead.le
    have := Int.ceil_nonneg hml
    omega
  exact ⟨hss, le_trans hss hdom, hdom⟩

/-- Witness for reorder_point_dominates at avg=1, std=1, lead=7, level=0.95. -/
theorem reorder_point_dominates_witness :
    (0 : ℚ) ≤ 1 ∧ (0 : ℝ) ≤ 1 ∧ (0 : ℤ) < 7 ∧
    calculate_safety_stock 1 1 7 0.95 ≤
      calculate_reorder_point 1 7 (calculate_safety_stock 1 1 7 0.95) :=
  ⟨zero_le_one, zero_le_one, by decide,
    (reorder_point_dominates 1 1 7 0.95 zero_le_one zero_le_one (by decide)).2.2⟩

/-- C7: calculate_eoq returns 0 whenever annualized demand ≤ 0, otherwise
ceil(sqrt((2 × annual_demand × ordering_cost) / (unit_cost × holding_cost_rate))),
a non-negative integer; and calculate_eoq(7300, 50, 0.25, 10) = 541. -/
theorem eoq_guard_formula_example :
    (∀ D S r u : ℚ, D ≤ 0 → calculate_eoq D S r u = 0) ∧
    (∀ D S r u : ℚ, 0 < D →
      calculate_eoq D S r u = ⌈Real.sqrt ((((2 * D * S) / (u * r)) : ℚ) : ℝ)⌉) ∧
    (∀ D S r u : ℚ, 0 ≤ S → 0 < u * r → 0 ≤ calculate_eoq D S r u) ∧
    calculate_eoq 7300 50 0.25 10 = 541 := by
  refine ⟨?_, ?_, ?_, ?_⟩
  · intro D S r u hD
    simp only [calculate_eoq, if_pos hD]
  · intro D S r u hD
    simp only [calculate_eoq, if_neg (not_le.mpr hD)]
  · intro D S r u _hS _hur
    unfold calculate_eoq
    split_ifs with h
    · exact le_refl 0
    · exact Int.ceil_nonneg (Real.sqrt_nonneg _)
  · unfold calculate_eoq
    rw [if_neg (by norm_num)]
    show (⌈Real.sqrt ((((2 * 7300 * 50) / (10 * 0.25)) : ℚ) : ℝ)⌉ : ℤ) = 541
    have harg : ((((2 * 7300 * 50) / (10 * 0.25)) : ℚ) : ℝ) = 292000 := by norm_num
    rw [harg, Int.ceil_eq_iff]
    constructor
    · push_cast
      rw [show ((541 : ℝ) - 1) = 540 by norm_num]
      rw [Real.lt_sqrt (by norm_num)]
      norm_num
    · rw [Real.sqrt_le_iff]
      norm_num

/-- Witness for eoq_guard_formula_example: the zero-demand guard applied at
annual demand 0 with the Python default costs. -/
theorem eoq_guard_formula_example_witness :
    (0 : ℚ) ≤ 0 ∧ calculate_eoq 0 50 0.25 10 = 0 :=
  ⟨le_refl 0, eoq_guard_formula_example.1 0 50 0.25 10 (le_refl 0)⟩

/-- C9: get_stock_status evaluates its conditions in order (first match wins):
current_stock ≤ safety_stock is Critical, else current_stock ≤ reorder_point is
Low - Order Now, else current_stock ≤ reorder_point × 1.5 is Moderate, else
Healthy; with safety_stock=10, reorder_point=20 the boundary cases come out as
10 to Critical, 11 and 20 to Low - Order Now, 21 to Moderate, 31 to Healthy. -/
theorem stock_status_triage :
    (∀ cs rp ss : ℤ,
      (cs ≤ ss → get_stock_status cs rp ss = "Critical") ∧
      (ss < cs → cs ≤ rp → get_stock_status cs rp ss = "Low - Order Now") ∧
      (ss < cs → rp < cs → (cs : ℚ) ≤ (rp : ℚ) * 1.5 →
        get_stock_status cs rp ss = "Moderate") ∧
      (ss < cs → rp < cs → (rp : ℚ) * 1.5 < (cs : ℚ) →
        get_stock_status cs rp ss = "Healthy")) ∧
    get_stock_status 10 20 10 = "Critical" ∧
    get_stock_status 11 20 10 = "Low - Order Now" ∧
    get_stock_status 20 20 10 = "Low - Order Now" ∧
    get_stock_status 21 20 10 = "Moderate" ∧
    get_stock_status 31 20 10 = "Healthy" := by
  refine ⟨?_, by norm_num [get_stock_status], by norm_num [get_stock_status],
    by norm_num [get_stock_status], by norm_num [get_stock_status],
    by norm_num [get_stock_status]⟩
  intro cs rp ss
  refine ⟨?_, ?_, ?_, ?_⟩
  · intro h
    simp only [get_stock_status, if_pos h]
  · intro h1 h2
    simp only [get_stock_status, if_neg (not_le.mpr h1), if_pos h2]
  · intro h1 h2 h3
    simp only [get_stock_status, if_neg (not_le.mpr h1), if_neg (not_le.mpr h2),
      if_pos h3]
  · intro h1 h2 h3
    simp only [get_stock_status, if_neg (not_le.mpr h1), if_neg (not_le.mpr h2),
      if_neg (not_le.mpr h3)]

/-- Witness for stock_status_triage: the Critical arm applied at stock 5 with
safety stock 10, reorder point 20. -/
theorem stock_status_triage_witness :
    (5 : ℤ) ≤ 10 ∧ get_stock_status 5 20 10 = "Critical" :=
  ⟨by decide, (stock_status_triage.1 5 20 10).1 (by decide)⟩

/-- A sales document as stored in the sales collection / returned by
get_sales_by_product.  date is the sale_date-or-created_at value that
pd.to_datetime parses, as a day number; none stands for a malformed value on
which pd.to_datetime raises. -/
structure SaleDoc where
  product_id : Option String
  store_id : String
  date : Option ℤ
  quantity : ℚ
deriving DecidableEq

/-- An inventory document (the fields the optimize loop reads; sanitization
does not touch them). -/
structure InvDoc where
  store_id : String
  product_id : Option String
  product_name : Option String
  category : Option String
  quantity : ℤ
deriving DecidableEq

/-- A product catalog document (the fields the optimize loop reads). -/
structure ProdDoc where
  pid : String
  name : Option String
  category : Option String
  cost : Option ℚ
deriving DecidableEq

/-- A store document: its id and owning user, as used by the ownership checks
of the other store-scoped endpoints of the router. -/
structure StoreDoc where
  sid : String
  user_id : String
deriving DecidableEq

/-- A snapshot of the Mongo database, plus the collaborator failure mode the
loop catches: sales_lookup_raises marks product ids for which
get_sales_by_product raises (the except branch then leaves sales empty). -/
structure DB where
  stores : List StoreDoc
  products : List ProdDoc
  inventory : List InvDoc
  sales : List SaleDoc
  sales_lookup_raises : String → Bool

/-- dal/stores_repo.get_store_by_id: ObjectId validity check, then lookup. -/
def get_store_by_id (db : DB) (store_id : String) : Option StoreDoc :=
  if isValidObjectId store_id then db.stores.find? (fun st => st.sid == store_id)
  else none

/-- dal/sales_repo.get_sales_by_product with its default pagination
(skip 0, limit 100). -/
def get_sales_by_product (db : DB) (product_id : String) : List SaleDoc :=
  (db.sales.filter (fun s => s.product_id == some product_id)).take 100

/-- dal/inventory_repo.get_inventory_by_store with its default pagination
(skip 0, limit 100). -/
def get_inventory_by_store (db : DB) (store_id : String) : List InvDoc :=
  (db.inventory.filter (fun i => i.store_id == store_id)).take 100

/-- Python x or y for an optional string x (None and the empty string are
falsy). -/
def pyOrS (x : Option String) (y : String) : String :=
  match x with
  | some s => if s = "" then y else s
  | none => y

/-- Python x or y for two optional strings. -/
def pyOrOS (x y : Option String) : Option String :=
  match x with
  | some s => if s = "" then y else some s
  | none => y

/-- Python x or y for an optional float x (None and 0.0 are falsy). -/
def pyOrQ (x : Option ℚ) (y : ℚ) : ℚ :=
  match x with
  | some c => if c = 0 then y else c
  | none => y

/-- Python str() applied to an optional string (str(None) is "None"). -/
def pyStr (x : Option String) : String :=
  match x with
  | some s => s
  | none => "None"

/-- The category-keyed default unit cost dict of optimize_inventory, with
dict.get default 10. -/
def unit_costs (category : String) : ℚ :=
  if category = "Electronics" then 100
  else if category = "Clothing" then 30
  else if category = "Food" then 5
  else 10

/-- routers/inventory.py lines 294-312: resolve product name, category and
unit cost for one inventory row.  The except branch of the source (a failing
catalog read) coincides with the not-found branch: fallback unit cost, name
and category unchanged. -/
def resolve_product_fields (db : DB) (item : InvDoc) :
    Option String × String × ℚ :=
  let product_name := item.product_name
  let category := pyOrS item.category "Uncategorized"
  match item.product_id with
  | some pid =>
      if isValidObjectId pid then
        match db.products.find? (fun p => p.pid == pid) with
        | some prod =>
            let product_name := pyOrOS prod.name product_name
            let category := pyOrS prod.category category
            (product_name, category, pyOrQ prod.cost (unit_costs category))
        | none => (product_name, category, unit_costs category)
      else (product_name, category, unit_costs category)
  | none => (product_name, category, unit_costs category)

/-- routers/inventory.py lines 315-322: the sales of one product filtered to
the store; empty when product_id is falsy and when get_sales_by_product raises
(the except branch). -/
def fetch_sales (db : DB) (store_id : String) (prod_id : Option String) :
    List SaleDoc :=
  match prod_id with
  | some pid =>
      if pid = "" then []
      else if db.sales_lookup_raises pid then []
      else (get_sales_by_product db pid).filter (fun s => s.store_id == store_id)
  | none => []

/-- Python round(x, 2) on an exact rational value. -/
def round2q (q : ℚ) : ℚ := ((round (q * 100) : ℤ) : ℚ) / 100

/-- Python round(x, 1) on an exact rational value. -/
def round1q (q : ℚ) : ℚ := ((round (q * 10) : ℤ) : ℚ) / 10

/-- Python round(x, 2) on a real value. -/
noncomputable def round2r (x : ℝ) : ℝ := ((round (x * 100) : ℤ) : ℝ) / 100

/-- One metrics_list record (routers/inventory.py lines 361-377; the merged
duplicate dict keys resolve to their last occurrences). -/
structure MetricRow where
  product : String
  category : String
  current_stock : ℤ
  avg_daily_demand : ℚ
  demand_std : ℝ
  reorder_point : ℤ
  safety_stock : ℤ
  recommended_order_qty : ℤ
  annual_revenue : ℚ
  stock_days : ℚ
  abc_classification : String
  status : String

/-- routers/inventory.py lines 349-377: from the demand statistics of one row
to its metrics record.  demand_std or (avg*0.2) is the Python or (0.0 is
falsy); the record's demand_std field keeps the pre-or value, as in the
source. -/
noncomputable def finish_row (product_name : Option String) (category : String)
    (unit_cost : ℚ) (prod_id : Option String) (current_stock : ℤ)
    (lead_time_days : ℤ) (service_level : ℚ) (avg : ℚ) (std : ℝ)
    (annual : ℚ) : MetricRow :=
  let std_or : ℝ := if std = 0 then ((avg : ℝ) * 0.2) else std
  let safety_stock := calculate_safety_stock avg std_or lead_time_days service_level
  let reorder_point := calculate_reorder_point avg lead_time_days safety_stock
  let eoq := calculate_eoq annual 50 0.25 unit_cost
  let unit_price := unit_cost * 1.5
  let annual_revenue := annual * unit_price
  let stock_days : ℚ := if 0 < avg then (current_stock : ℚ) / avg else 999
  { product := pyOrS product_name (pyStr prod_id)
    category := category
    current_stock := current_stock
    avg_daily_demand := round2q avg
    demand_std := round2r std
    reorder_point := reorder_point
    safety_stock := safety_stock
    recommended_order_qty := eoq
    annual_revenue := round2q annual_revenue
    stock_days := round1q stock_days
    abc_classification := ""
    status := "" }

/-- routers/inventory.py lines 292-377: one iteration of the per-product loop.
The error value is an uncaught per-row exception (a sale date on which
pd.to_datetime raises); it propagates out of the loop to the outer handler. -/
noncomputable def build_metric_row (db : DB) (store_id : String)
    (lead_time_days : ℤ) (service_level : ℚ) (item : InvDoc) :
    Except Unit MetricRow :=
  let prod_id := item.product_id
  let current_stock := item.quantity
  let r := resolve_product_fields db item
  match fetch_sales db store_id prod_id with
  | [] =>
      Except.ok (finish_row r.1 r.2.1 r.2.2 prod_id current_stock lead_time_days
        service_level 0 0 0)
  | s :: ss =>
      match (s :: ss).mapM SaleDoc.date with
      | none => Except.error ()
      | some dates =>
          let obs := List.zipWith SaleObs.mk dates ((s :: ss).map SaleDoc.quantity)
          Except.ok (finish_row r.1 r.2.1 r.2.2 prod_id current_stock
            lead_time_days service_level (avg_daily_demand obs)
            (demand_std_dev obs) (annual_demand obs))

/-- The per-product for loop: records are accumulated in order; an uncaught
exception aborts the whole loop. -/
noncomputable def collect_rows (db : DB) (store_id : String)
    (lead_time_days : ℤ) (service_level : ℚ) :
    List InvDoc → Except Unit (List MetricRow)
  | [] => Except.ok []
  | item :: items =>
      match build_metric_row db store_id lead_time_days service_level item with
      | Except.error e => Except.error e
      | Except.ok row =>
          match collect_rows db store_id lead_time_days service_level items with
          | Except.error e => Except.error e
          | Except.ok rows => Except.ok (row :: rows)

/-- The router-local perform_abc_analysis applied to the metrics dataframe
(routers/inventory.py lines 107-135; it shadows the repository import).  This
copy has no zero-revenue guard: with a zero total, pandas produces NaN (0/0)
or +inf (x/0 for x > 0) cumulative percentages, and both compare False against
80 and 95, so classify falls through to C; the total = 0 branch below encodes
that outcome directly (the loop produces non-negative revenues for
non-negative sale quantities; ℚ has no NaN or infinity). -/
def router_abc (rows : List MetricRow) : List MetricRow :=
  let sorted := sortDescBy MetricRow.annual_revenue rows
  let total := (sorted.map MetricRow.annual_revenue).sum
  if total = 0 then sorted.map fun r => { r with abc_classification := "C" }
  else
    let cums := cumsum (sorted.map MetricRow.annual_revenue)
    (sorted.zip cums).map fun p =>
      { p.1 with abc_classification := abcClassify (p.2 / total * 100) }

/-- HTTPException outcomes of the router: notFound (404) with its detail
message, forbidden (403, the 'Forbidden' raised by the other store-scoped
endpoints), serverError (500, the generic except branch). -/
inductive OptError where
  | notFound : String → OptError
  | forbidden : OptError
  | serverError : OptError
deriving DecidableEq

/-- abc_summary (routers/inventory.py lines 393-397). -/
structure AbcSummary where
  a : ℕ
  b : ℕ
  c : ℕ
deriving DecidableEq

/-- The InventoryOptimizationResponse assembled at lines 401-407. -/
structure OptimizationReport where
  store_id : String
  total_products : ℕ
  metrics : List MetricRow
  abc_summary : AbcSummary
  total_annual_revenue : ℚ

/-- routers/inventory.py optimize_inventory (GET /optimize/\x7bstore_id\x7d).
The endpoint takes no caller identity.  Store-level checks in source order: no
sales data (404), no inventory data (404), store not found (404), no inventory
items (404); a per-row exception reaches the outer generic handler (500).
Python defaults are lead_time_days=7, service_level=0.95. -/
noncomputable def optimize_inventory (db : DB) (store_id : String)
    (lead_time_days : ℤ) (service_level : ℚ) :
    Except OptError OptimizationReport :=
  let sales_data := db.sales.filter (fun s => s.store_id == store_id)
  let inventory_data := db.inventory.filter (fun i => i.store_id == store_id)
  if sales_data.isEmpty then Except.error (OptError.notFound "No sales data found")
  else if inventory_data.isEmpty then
    Except.error (OptError.notFound "No inventory data found")
  else
    match get_store_by_id db store_id with
    | none => Except.error (OptError.notFound "Store not found")
    | some _ =>
        let inventory_items := get_inventory_by_store db store_id
        if inventory_items.isEmpty then
          Except.error (OptError.notFound "No inventory found")
        else
          match collect_rows db store_id lead_time_days service_level
              inventory_items with
          | Except.error _ => Except.error OptError.serverError
          | Except.ok rows =>
              let rows2 := router_abc rows
              let rows3 := rows2.map fun r =>
                { r with status := (get_stock_status r.current_stock
                    r.reorder_point r.safety_stock) }
              Except.ok
                { store_id := store_id
                  total_products := rows3.length
                  metrics := rows3
                  abc_summary :=
                    { a := (rows3.filter
                        (fun r => r.abc_classification == "A")).length
                      b := (rows3.filter
                        (fun r => r.abc_classification == "B")).length
                      c := (rows3.filter
                        (fun r => r.abc_classification == "C")).length }
                  total_annual_revenue :=
                    (rows3.map MetricRow.annual_revenue).sum }

theorem safety_stock_zero_std (avg : ℚ) (lead : ℤ) (sl : ℚ) :
    calculate_safety_stock avg 0 lead sl = 0 := by
  unfold calculate_safety_stock
  simp

theorem valid_oid_ne_empty (s : String) (h : isValidObjectId s = true) :
    s ≠ "" := by
  intro he
  subst he
  exact absurd h (by decide)

theorem resolve_product_not_found (db : DB) (item : InvDoc) (pid : String)
    (h1 : item.product_id = some pid) (h2 : isValidObjectId pid = true)
    (h3 : db.products.find? (fun p => p.pid == pid) = none) :
    resolve_product_fields db item =
      (item.product_name, pyOrS item.category "Uncategorized",
        unit_costs (pyOrS item.category "Uncategorized")) := by
  unfold resolve_product_fields
  rw [h1]
  simp [h2, h3]

theorem fetch_sales_raises (db : DB) (sid pid : String)
    (hne : pid ≠ "") (h : db.sales_lookup_raises pid = true) :
    fetch_sales db sid (some pid) = [] := by
  unfold fetch_sales
  simp [hne, h]

theorem round1q_999 : round1q 999 = 999 := by
  unfold round1q
  rw [show (999 : ℚ) * 10 = ((9990 : ℤ) : ℚ) by norm_num, round_intCast]
  norm_num

/-- The metrics record emitted for a row with no usable sales history:
zero demand statistics and derived zero thresholds. -/
def zero_stats_row (product_name : Option String) (category : String)
    (prod_id : Option String) (current_stock : ℤ) : MetricRow :=
  { product := pyOrS product_name (pyStr prod_id)
    category := category
    current_stock := current_stock
    avg_daily_demand := 0
    demand_std := 0
    reorder_point := 0
    safety_stock := 0
    recommended_order_qty := 0
    annual_revenue := 0
    stock_days := 999
    abc_classification := ""
    status := "" }

theorem finish_row_zero_stats (product_name : Option String) (category : String)
    (unit_cost : ℚ) (prod_id : Option String) (current_stock : ℤ)
    (lead : ℤ) (sl : ℚ) :
    finish_row product_name category unit_cost prod_id current_stock lead sl
      0 0 0 = zero_stats_row product_name category prod_id current_stock := by
  unfold finish_row zero_stats_row
  simp [safety_stock_zero_std, calculate_reorder_point, calculate_eoq,
    round2q, round2r, round1q_999]

theorem build_row_unresolved (db : DB) (sid : String) (lead : ℤ) (sl : ℚ)
    (item : InvDoc) (pid : String) (h1 : item.product_id = some pid)
    (h2 : isValidObjectId pid = true)
    (h3 : db.products.find? (fun p => p.pid == pid) = none)
    (h4 : db.sales_lookup_raises pid = true) :
    build_metric_row db sid lead sl item =
      Except.ok (zero_stats_row item.product_name
        (pyOrS item.category "Uncategorized") (some pid) item.quantity) := by
  unfold build_metric_row
  simp only [h1, resolve_product_not_found db item pid h1 h2 h3,
    fetch_sales_raises db sid pid (valid_oid_ne_empty pid h2) h4,
    finish_row_zero_stats]

theorem router_abc_single_zero (r : MetricRow) (h : r.annual_revenue = 0) :
    router_abc [r] = [{ r with abc_classification := "C" }] := by
  unfold router_abc
  simp [sortDescBy, insertDescBy, h]

/-- The store id of the example databases: a well-formed ObjectId. -/
def exStoreId : String := "aaaaaaaaaaaaaaaaaaaaaaaa"

/-- A product id that has one sale at the store but no inventory row. -/
def exProdX : String := "bbbbbbbbbbbbbbbbbbbbbbbb"

/-- The inventoried product id: absent from the product catalog and without
sales of its own. -/
def exProdY : String := "cccccccccccccccccccccccc"

/-- A product id whose sale carries a date pd.to_datetime cannot parse. -/
def exProdZ : String := "dddddddddddddddddddddddd"

/-- The single inventory row of the example store. -/
def exItem : InvDoc :=
  { store_id := exStoreId, product_id := some exProdY, product_name := none,
    category := none, quantity := 5 }

/-- Example database: the store belongs to user alice; it has one sale (for
exProdX) and one inventory row (exProdY, stock 5) whose product has no catalog
entry and no sales. -/
def exDb : DB :=
  { stores := [{ sid := exStoreId, user_id := "alice" }]
    products := []
    inventory := [exItem]
    sales := [{ product_id := some exProdX, store_id := exStoreId,
                date := some 0, quantity := 3 }]
    sales_lookup_raises := fun _ => false }

/-- exDb with a sales lookup that raises for exProdY. -/
def exDbRaises : DB := { exDb with sales_lookup_raises := fun p => p == exProdY }

/-- The inventory row of the bad-date example database. -/
def exItemZ : InvDoc :=
  { store_id := exStoreId, product_id := some exProdZ, product_name := none,
    category := none, quantity := 2 }

/-- The sale with a date pd.to_datetime cannot parse. -/
def exSaleZ : SaleDoc :=
  { product_id := some exProdZ, store_id := exStoreId, date := none,
    quantity := 4 }

/-- Example database whose inventoried product has one sale with a malformed
date. -/
def exDbBadDate : DB :=
  { stores := [{ sid := exStoreId, user_id := "alice" }]
    products := []
    inventory := [exItemZ]
    sales := [exSaleZ]
    sales_lookup_raises := fun _ => false }

/-- The final metrics row of the report on exDb. -/
def exRow : MetricRow :=
  { product := exProdY
    category := "Uncategorized"
    current_stock := 5
    avg_daily_demand := 0
    demand_std := 0
    reorder_point := 0
    safety_stock := 0
    recommended_order_qty := 0
    annual_revenue := 0
    stock_days := 999
    abc_classification := "C"
    status := "Healthy" }

/-- exRow before the ABC and status passes. -/
def exRow0 : MetricRow :=
  { exRow with abc_classification := "", status := "" }

/-- The report optimize_inventory returns on exDb. -/
def exReport : OptimizationReport :=
  { store_id := exStoreId
    total_products := 1
    metrics := [exRow]
    abc_summary := { a := 0, b := 0, c := 1 }
    total_annual_revenue := 0 }

theorem exDb_resolve : resolve_product_fields exDb exItem =
    (none, "Uncategorized", 10) := by
  rfl

theorem exDb_fetch : fetch_sales exDb exStoreId (some exProdY) = [] := by
  decide

theorem exDb_row : build_metric_row exDb exStoreId 7 0.95 exItem =
    Except.ok exRow0 := by
  unfold build_metric_row
  simp only [show exItem.product_id = some exProdY from rfl,
    show exItem.quantity = (5 : ℤ) from rfl, exDb_resolve, exDb_fetch,
    finish_row_zero_stats]
  rfl

theorem exDb_collect : collect_rows exDb exStoreId 7 0.95 [exItem] =
    Except.ok [exRow0] := by
  simp [collect_rows, exDb_row]

theorem exDb_eval : optimize_inventory exDb exStoreId 7 0.95 =
    Except.ok exReport := by
  have hs : (exDb.sales.filter (fun s => s.store_id == exStoreId)).isEmpty
      = false := by decide
  have hi : (exDb.inventory.filter (fun i => i.store_id == exStoreId)).isEmpty
      = false := by decide
  have hst : get_store_by_id exDb exStoreId =
      some { sid := exStoreId, user_id := "alice" } := by decide
  have hit : get_inventory_by_store exDb exStoreId = [exItem] := by decide
  have habc : router_abc [exRow0] =
      [{ exRow0 with abc_classification := "C" }] :=
    router_abc_single_zero exRow0 rfl
  have hstat : get_stock_status 5 0 0 = "Healthy" := by
    norm_num [get_stock_status]
  unfold optimize_inventory
  simp only [hs, hi, hst, hit, exDb_collect, habc, hstat, Bool.false_eq_true,
    if_false, List.isEmpty_cons, List.map_cons, List.map_nil]
  simp only [show exRow0.current_stock = (5 : ℤ) from rfl,
    show exRow0.reorder_point = (0 : ℤ) from rfl,
    show exRow0.safety_stock = (0 : ℤ) from rfl, hstat]
  simp only [Except.ok.injEq, exReport, OptimizationReport.mk.injEq,
    AbcSummary.mk.injEq]
  repeat' apply And.intro
  all_goals try trivial
  all_goals simp [show exRow0.annual_revenue = (0 : ℚ) from rfl]

theorem exDbBadDate_error : optimize_inventory exDbBadDate exStoreId 7 0.95 =
    Except.error OptError.serverError := by
  have hs : (exDbBadDate.sales.filter
      (fun s => s.store_id == exStoreId)).isEmpty = false := by decide
  have hi : (exDbBadDate.inventory.filter
      (fun i => i.store_id == exStoreId)).isEmpty = false := by decide
  have hst : get_store_by_id exDbBadDate exStoreId =
      some { sid := exStoreId, user_id := "alice" } := by decide
  have hit : get_inventory_by_store exDbBadDate exStoreId = [exItemZ] := by
    decide
  have hfetch : fetch_sales exDbBadDate exStoreId (some exProdZ) = [exSaleZ] := by
    decide
  have hrow : build_metric_row exDbBadDate exStoreId 7 0.95 exItemZ =
      Except.error () := by
    unfold build_metric_row
    simp only [show exItemZ.product_id = some exProdZ from rfl, hfetch]
    rfl
  have hcol : collect_rows exDbBadDate exStoreId 7 0.95 [exItemZ] =
      Except.error () := by
    simp [collect_rows, hrow]
  unfold optimize_inventory
  simp only [hs, hi, hst, hit, hcol, Bool.false_eq_true, if_false,
    List.isEmpty_cons]

/-- C1 amended: optimize_inventory receives no caller identity and performs no
store-ownership check, so it never signals Forbidden, for any database state,
store id and parameters; its only failures are the not-found conditions and
the generic server error. -/
theorem optimize_never_forbidden (db : DB) (store_id : String)
    (lead_time_days : ℤ) (service_level : ℚ) :
    optimize_inventory db store_id lead_time_days service_level ≠
      Except.error OptError.forbidden := by
  unfold optimize_inventory
  by_cases h1 : (db.sales.filter (fun s => s.store_id == store_id)).isEmpty
  · simp [h1]
  · by_cases h2 : (db.inventory.filter (fun i => i.store_id == store_id)).isEmpty
    · simp [h1, h2]
    · cases hst : get_store_by_id db store_id with
      | none => simp [h1, h2, hst]
      | some st =>
          by_cases h3 : (get_inventory_by_store db store_id).isEmpty
          · simp [h1, h2, hst, h3]
          · cases hc : collect_rows db store_id lead_time_days service_level
                (get_inventory_by_store db store_id) with
            | error e => simp [h1, h2, hst, h3, hc]
            | ok rows => simp [h1, h2, hst, h3, hc]

/-- C1 fails on the code: the example store belongs to user alice, yet
optimize_inventory - which takes no caller identity and checks no ownership -
returns the full report rather than signalling Forbidden, no matter who calls
(in particular the non-owner bob). -/
theorem optimize_no_ownership_counterexample :
    exDb.stores = [{ sid := exStoreId, user_id := "alice" }] ∧
    ("bob" : String) ≠ "alice" ∧
    optimize_inventory exDb exStoreId 7 0.95 = Except.ok exReport ∧
    optimize_inventory exDb exStoreId 7 0.95 ≠
      Except.error OptError.forbidden := by
  refine ⟨rfl, by decide, exDb_eval, ?_⟩
  rw [exDb_eval]
  simp

/-- C4 fails on the code: exDb's single inventory row references a product
with no catalog entry and no sales history, yet the row is not excluded - the
returned report consists of exactly that row, carried with fallback category
and zero statistics. -/
theorem per_row_failure_included_counterexample :
    exDb.products.find? (fun p => p.pid == exProdY) = none ∧
    fetch_sales exDb exStoreId (some exProdY) = [] ∧
    optimize_inventory exDb exStoreId 7 0.95 = Except.ok exReport ∧
    exReport.metrics.map MetricRow.product = [exProdY] :=
  ⟨rfl, exDb_fetch, exDb_eval, rfl⟩

/-- C4 amended: a row whose product record is unresolvable and whose
sales-history lookup raises is not excluded - the loop emits a full metrics
record for it, with fallback category and unit cost and zero demand
statistics; and a per-product statistics failure is not caught per-row: one
malformed sale date makes the whole operation fail with the generic server
error instead of a best-effort report. -/
theorem per_row_failures_included_or_abort :
    (∀ (db : DB) (sid : String) (lead : ℤ) (sl : ℚ) (item : InvDoc)
        (pid : String), item.product_id = some pid →
      isValidObjectId pid = true →
      db.products.find? (fun p => p.pid == pid) = none →
      db.sales_lookup_raises pid = true →
      build_metric_row db sid lead sl item =
        Except.ok (zero_stats_row item.product_name
          (pyOrS item.category "Uncategorized") (some pid) item.quantity)) ∧
    optimize_inventory exDbBadDate exStoreId 7 0.95 =
      Except.error OptError.serverError :=
  ⟨fun db sid lead sl item pid h1 h2 h3 h4 =>
    build_row_unresolved db sid lead sl item pid h1 h2 h3 h4,
    exDbBadDate_error⟩

/-- Witness for per_row_failures_included_or_abort: the row-inclusion part
applied to exDbRaises, whose sales lookup raises for exProdY. -/
theorem per_row_failures_included_or_abort_witness :
    exItem.product_id = some exProdY ∧
    isValidObjectId exProdY = true ∧
    exDbRaises.products.find? (fun p => p.pid == exProdY) = none ∧
    exDbRaises.sales_lookup_raises exProdY = true ∧
    build_metric_row exDbRaises exStoreId 7 0.95 exItem =
      Except.ok (zero_stats_row exItem.product_name
        (pyOrS exItem.category "Uncategorized") (some exProdY) exItem.quantity) :=
  ⟨rfl, by decide, rfl, by decide,
    per_row_failures_included_or_abort.1 exDbRaises exStoreId 7 0.95 exItem
      exProdY rfl (by decide) rfl (by decide)⟩

end RetailInv
